import Mathlib

/-!
Verification of the AI-service HTTP facade (`src/services/ai-service/main.py`)
against its natural-language specification.

The file under verification is routing glue over two collaborator services
(`MLService`, `TradingAssistantService`) whose implementations are not part of
the provided source.  We embed the collaborators as oracles: records of
functions returning `Except String Value`, where `Except.error e` models a
raised Python exception whose `str(...)` is `e`, and `Except.ok v` models a
normal return of the JSON-like value `v`.

Each handler is embedded as a Lean function translated line by line from the
Python handler body.  A handler returns `Except HTTPError Value × Nat`: the
first component is the HTTP outcome (a JSON response body, or an
`HTTPException` with a status code and a detail string) and the second
component counts how many methods were invoked on a service object during the
run; every application of an oracle field goes through `svcCall`, which is the
only place the counter is incremented.
-/

/-- JSON-like values, the ad-hoc dictionaries the service passes around.
Python dicts are embedded as association lists (insertion order is kept,
as in Python); floats are embedded as rationals, which is faithful here
because the facade never computes with them, it only moves them around. -/
inductive Value : Type where
  | str (s : String)
  | num (q : Rat)
  | bool (b : Bool)
  | null
  | dict (kvs : List (String × Value))
  | list (vs : List Value)

/-- Model of `fastapi.HTTPException`: an HTTP status code together with a detail
string. -/
structure HTTPError : Type where
  status_code : Nat
  detail : String

/-- The apostrophe character, used by Python in `str(KeyError(k))`. -/
def quoteChar : Char := Char.ofNat 39

/-- In Python, `str(KeyError(k))` is the key wrapped in single quotes. -/
def keyErrorStr (k : String) : String :=
  String.singleton quoteChar ++ k ++ String.singleton quoteChar

/-- Python attribute access `v.get(key, default)`: defined for dicts,
raises (an `AttributeError`, whose exact message we abbreviate) on any
non-dict value. -/
def Value.get (v : Value) (key : String) (default : Value) : Except String Value :=
  match v with
  | .dict kvs => .ok ((kvs.lookup key).getD default)
  | _ => .error "AttributeError: object has no attribute get"

/-- Python subscript `v[key]`: on a dict, the value at `key` or a
`KeyError`; on any non-dict value a `TypeError` (message abbreviated). -/
def Value.getItem (v : Value) (key : String) : Except String Value :=
  match v with
  | .dict kvs =>
    match kvs.lookup key with
    | some x => .ok x
    | none => .error (keyErrorStr key)
  | _ => .error "TypeError: object is not subscriptable"

/-- Oracle for the absent collaborator `app.services.ml_service.MLService`:
the attribute and the three methods the facade uses.  Each method either
returns a value or raises (models `await` of the coroutine). -/
structure MLService : Type where
  models_loaded : Bool
  predict_price : String → String → Int → Except String Value
  get_model_version : String → Except String Value
  optimize_portfolio : Value → Rat → Except String Value

/-- Oracle for the absent collaborator
`app.services.trading_assistant.TradingAssistantService`. -/
structure TradingAssistantService : Type where
  process_message : String → String → Except String Value

/-- Perform one method call on a service object: returns the call result and
increments the service-call counter.  Every oracle-field application in a
handler body goes through this function, so the second component of a
handler run counts exactly the service-method invocations. -/
def svcCall {α : Type} (r : Except String α) (n : Nat) : Except String α × Nat :=
  (r, n + 1)

/-- Handler of `GET /health` (main.py lines 72-79).  The argument is the
module-global `ml_service`, which is `None` (line 19) until the lifespan
startup assigns it (line 32).  The body is a plain dict literal: no service
method is called (the `models_loaded` attribute is read directly) and there
is no `try/except`, so the handler always succeeds and the call count is 0. -/
def health_check (ml_service : Option MLService) : Except HTTPError Value × Nat :=
  (.ok (.dict [
    ("status", .str "healthy"),
    ("service", .str "ai-service"),
    ("version", .str "1.0.0"),
    ("models_loaded", .bool (match ml_service with
      | some s => s.models_loaded
      | none => false))]), 0)

/-- Handler of `POST /api/v1/trading-assistant/chat` (main.py lines 81-94):
one call to `trading_assistant.process_message(message, user_id)`; its result
is wrapped as `{"response": response}`; any exception becomes
`HTTPException(500, str(e))`. -/
def chat_with_assistant (trading_assistant : TradingAssistantService)
    (message : String) (user_id : String) : Except HTTPError Value × Nat :=
  match svcCall (trading_assistant.process_message message user_id) 0 with
  | (.error e, n) => (.error ⟨500, e⟩, n)
  | (.ok response, n) => (.ok (.dict [("response", response)]), n)

/-- Handler of `POST /api/v1/predictions/price` (main.py lines 96-116):
first `ml_service.predict_price(symbol, timeframe, periods)`, then the dict
literal of lines 108-114 is built left to right: `predictions.get`
(line 112) is evaluated before the second service call
`ml_service.get_model_version("price_prediction")` (line 113).  Any
exception in the `try` block becomes `HTTPException(500, str(e))`. -/
def predict_price (ml_service : MLService) (symbol : String) (timeframe : String)
    (periods : Int) : Except HTTPError Value × Nat :=
  match svcCall (ml_service.predict_price symbol timeframe periods) 0 with
  | (.error e, n) => (.error ⟨500, e⟩, n)
  | (.ok predictions, n) =>
    match predictions.get "confidence" (.num 0) with
    | .error e => (.error ⟨500, e⟩, n)
    | .ok confidence =>
      match svcCall (ml_service.get_model_version "price_prediction") n with
      | (.error e, n2) => (.error ⟨500, e⟩, n2)
      | (.ok model_version, n2) =>
        (.ok (.dict [
          ("symbol", .str symbol),
          ("timeframe", .str timeframe),
          ("predictions", predictions),
          ("confidence", confidence),
          ("model_version", model_version)]), n2)

/-- Handler of `POST /api/v1/ai/portfolio-optimization` (main.py lines
118-140): one call to `ml_service.optimize_portfolio(portfolio_data,
risk_tolerance)`, then the dict literal of lines 132-138 subscripts the
result five times in order (`weights`, `expected_return`, `risk`,
`sharpe_ratio`, `recommendations`); a missing key raises a `KeyError`
inside the `try` block.  Any exception becomes `HTTPException(500, str(e))`. -/
def optimize_portfolio (ml_service : MLService) (portfolio_data : Value)
    (risk_tolerance : Rat) : Except HTTPError Value × Nat :=
  match svcCall (ml_service.optimize_portfolio portfolio_data risk_tolerance) 0 with
  | (.error e, n) => (.error ⟨500, e⟩, n)
  | (.ok optimization, n) =>
    match (do
      let w ← optimization.getItem "weights"
      let er ← optimization.getItem "expected_return"
      let rk ← optimization.getItem "risk"
      let sh ← optimization.getItem "sharpe_ratio"
      let rcs ← optimization.getItem "recommendations"
      pure (Value.dict [
        ("optimized_weights", w),
        ("expected_return", er),
        ("risk", rk),
        ("sharpe_ratio", sh),
        ("recommendations", rcs)]) : Except String Value) with
    | .error e => (.error ⟨500, e⟩, n)
    | .ok body => (.ok body, n)

/-- Model of `fastapi.security.HTTPAuthorizationCredentials`: the parsed scheme and
credential part of an `Authorization` header. -/
structure HTTPAuthorizationCredentials : Type where
  scheme : String
  credentials : String

/-- Characters before the first space and characters after it, the
char-level core of the Python `str.partition(" ")`. -/
def splitAtSpace (cs : List Char) : List Char × List Char :=
  match cs with
  | [] => ([], [])
  | c :: rest =>
    if c = Char.ofNat 32 then ([], rest)
    else
      let p := splitAtSpace rest
      (c :: p.1, p.2)

/-- Model of `str.partition(" ")` as used by FastAPI to split an `Authorization`
header into scheme and parameter: everything before the first space, and
everything after it. -/
def partitionSpace (h : String) : String × String :=
  let p := splitAtSpace h.data
  (String.mk p.1, String.mk p.2)

/-- Model of the Python `str.lower()`, character by character. -/
def lowerStr (s : String) : String :=
  String.mk (s.data.map Char.toLower)

/-- The `security = HTTPBearer()` dependency (main.py line 61), with
the standard FastAPI semantics: a request with no `Authorization` header is
rejected with 403 "Not authenticated" before the handler runs; a header
whose scheme is not `bearer` (case-insensitive) is rejected with 403
"Invalid authentication credentials"; otherwise the scheme and token are
handed to the dependent. -/
def HTTPBearer (authorization : Option String) :
    Except HTTPError HTTPAuthorizationCredentials :=
  match authorization with
  | none => .error ⟨403, "Not authenticated"⟩
  | some h =>
    let p := partitionSpace h
    if lowerStr p.1 = "bearer" then .ok ⟨p.1, p.2⟩
    else .error ⟨403, "Invalid authentication credentials"⟩

/-- The dependency `get_current_user` (main.py lines 63-65): the body is `pass`, so for any
credentials it returns `None` without raising and without inspecting the
token. -/
def get_current_user (credentials : HTTPAuthorizationCredentials) :
    Except HTTPError (Option Value) :=
  .ok none

/-- Run the bearer-auth dependency chain (`security` then
`get_current_user`) and, only on success, the handler body.  A rejected
request never reaches the handler, so its service-call count is 0. -/
def withAuth (authorization : Option String)
    (handler : Option Value → Except HTTPError Value × Nat) :
    Except HTTPError Value × Nat :=
  match HTTPBearer authorization with
  | .error e => (.error e, 0)
  | .ok creds =>
    match get_current_user creds with
    | .error e => (.error e, 0)
    | .ok current_user => handler current_user

/-- Route `POST /api/v1/trading-assistant/chat` as dispatched by the app:
the `get_current_user` dependency guards the handler body. -/
def chat_route (trading_assistant : TradingAssistantService)
    (authorization : Option String) (message : String) (user_id : String) :
    Except HTTPError Value × Nat :=
  withAuth authorization (fun _ => chat_with_assistant trading_assistant message user_id)

/-- Route `POST /api/v1/predictions/price` as dispatched by the app: query
parameters `timeframe` and `periods` are optional, with the defaults
`"1h"` and `24` from the handler signature (main.py lines 99-100) applied
when omitted, and the `get_current_user` dependency guards the handler. -/
def predict_price_route (ml_service : MLService) (authorization : Option String)
    (symbol : String) (timeframe : Option String) (periods : Option Int) :
    Except HTTPError Value × Nat :=
  withAuth authorization (fun _ =>
    predict_price ml_service symbol (timeframe.getD "1h") (periods.getD 24))

/-- Route `POST /api/v1/ai/portfolio-optimization` as dispatched by the
app: the `get_current_user` dependency guards the handler. -/
def optimize_portfolio_route (ml_service : MLService) (authorization : Option String)
    (portfolio_data : Value) (risk_tolerance : Rat) :
    Except HTTPError Value × Nat :=
  withAuth authorization (fun _ =>
    optimize_portfolio ml_service portfolio_data risk_tolerance)

/-- Route `GET /health` as dispatched by the app: the handler has no
security dependency, so the `Authorization` header (present or not) is
ignored. -/
def health_route (ml_service : Option MLService) (authorization : Option String) :
    Except HTTPError Value × Nat :=
  health_check ml_service

/-- The module-global state of main.py before lifespan startup runs:
`ml_service = None` and `trading_assistant = None` (lines 19-20). -/
structure AppGlobals : Type where
  ml_service : Option MLService
  trading_assistant : Option TradingAssistantService

/-- Initial module globals (main.py lines 19-20). -/
def initialGlobals : AppGlobals := ⟨none, none⟩

/-! ### Concrete oracles used by witnesses and counterexamples -/

/-- A concrete healthy ML-service oracle whose methods all succeed. -/
def mlOK : MLService where
  models_loaded := true
  predict_price := fun _ _ _ => .ok (.dict [
    ("confidence", .num (17/20)), ("trend", .str "up")])
  get_model_version := fun _ => .ok (.str "2.3.1")
  optimize_portfolio := fun _ _ => .ok (.dict [
    ("weights", .dict [("AAPL", .num (3/5)), ("MSFT", .num (2/5))]),
    ("expected_return", .num (11/100)),
    ("risk", .num (1/25)),
    ("sharpe_ratio", .num (27/20)),
    ("recommendations", .list [.str "rebalance monthly"])])

/-- A concrete ML-service oracle whose methods all raise. -/
def mlFail : MLService where
  models_loaded := false
  predict_price := fun _ _ _ => .error "model inference failed"
  get_model_version := fun _ => .ok (.str "2.3.1")
  optimize_portfolio := fun _ _ => .error "optimizer diverged"

/-- A concrete ML-service oracle whose optimizer result lacks the
`risk` key. -/
def mlNoRisk : MLService where
  models_loaded := true
  predict_price := fun _ _ _ => .ok Value.null
  get_model_version := fun _ => .ok (.str "2.3.1")
  optimize_portfolio := fun _ _ => .ok (.dict [
    ("weights", .dict []),
    ("expected_return", .num 0),
    ("sharpe_ratio", .num 0),
    ("recommendations", .list [])])

/-- A concrete ML-service oracle whose prediction dict has no
`confidence` key. -/
def mlNoConf : MLService where
  models_loaded := true
  predict_price := fun _ _ _ => .ok (.dict [("trend", .str "down")])
  get_model_version := fun _ => .ok (.str "2.3.1")
  optimize_portfolio := fun _ _ => .ok (.dict [])

/-- A concrete assistant oracle that succeeds. -/
def taOK : TradingAssistantService where
  process_message := fun _ _ => .ok (.str "buy low, sell high")

/-- A concrete assistant oracle that raises. -/
def taFail : TradingAssistantService where
  process_message := fun _ _ => .error "assistant unavailable"

/-! ### Helpers for statements -/

/-- True exactly when an `Except` run produced a normal result rather than
an exception. -/
def Except.succeeded {ε α : Type} (r : Except ε α) : Bool :=
  match r with
  | .ok _ => true
  | .error _ => false

/-! ### Claims -/

/-- C1: for every request to each of the four documented endpoints, if the
service call a handler makes raises any exception, the handler returns
HTTP 500 whose detail field is the string representation of that
exception.  The three POST handlers catch any exception of any of their
service calls and re-raise it as `HTTPException(500, str(e))`; the
`GET /health` handler makes no service call and always succeeds, so the
property is vacuously true for it. -/
theorem exceptions_surface_as_500 (ta : TradingAssistantService) (ml : MLService)
    (message user_id symbol timeframe : String) (periods : Int)
    (portfolio_data : Value) (risk_tolerance : Rat) (e : String) :
    (ta.process_message message user_id = .error e →
      (chat_with_assistant ta message user_id).1 = .error ⟨500, e⟩) ∧
    (ml.predict_price symbol timeframe periods = .error e →
      (predict_price ml symbol timeframe periods).1 = .error ⟨500, e⟩) ∧
    (∀ p c, ml.predict_price symbol timeframe periods = .ok p →
      p.get "confidence" (.num 0) = .ok c →
      ml.get_model_version "price_prediction" = .error e →
      (predict_price ml symbol timeframe periods).1 = .error ⟨500, e⟩) ∧
    (ml.optimize_portfolio portfolio_data risk_tolerance = .error e →
      (optimize_portfolio ml portfolio_data risk_tolerance).1 = .error ⟨500, e⟩) ∧
    (∀ g : Option MLService, ∃ v, health_check g = (.ok v, 0)) := by
  refine ⟨?_, ?_, ?_, ?_, fun g => ⟨_, rfl⟩⟩
  · intro h
    simp [chat_with_assistant, svcCall, h]
  · intro h
    simp [predict_price, svcCall, h]
  · intro p c h1 h2 h3
    simp [predict_price, svcCall, h1, h2, h3]
  · intro h
    simp [optimize_portfolio, svcCall, h]

/-- Witness for C1: concrete failing oracles produce the 500 responses. -/
theorem exceptions_surface_as_500_witness :
    (chat_with_assistant taFail "hello" "u1").1 = .error ⟨500, "assistant unavailable"⟩ ∧
    (predict_price mlFail "BTC" "1h" 24).1 = .error ⟨500, "model inference failed"⟩ ∧
    (optimize_portfolio mlFail (.dict []) (1/2)).1 = .error ⟨500, "optimizer diverged"⟩ :=
  ⟨(exceptions_surface_as_500 taFail mlFail "hello" "u1" "BTC" "1h" 24 (.dict []) (1/2)
      "assistant unavailable").1 rfl,
   (exceptions_surface_as_500 taFail mlFail "hello" "u1" "BTC" "1h" 24 (.dict []) (1/2)
      "model inference failed").2.1 rfl,
   (exceptions_surface_as_500 taFail mlFail "hello" "u1" "BTC" "1h" 24 (.dict []) (1/2)
      "optimizer diverged").2.2.2.1 rfl⟩

/-- C2: `GET /health` always returns status "healthy", service
"ai-service", version "1.0.0"; its `models_loaded` field is `false` while
the ML-service singleton is still `None` (as it is in the initial module
globals, before startup) and equals the `models_loaded` attribute of the
singleton once it is set. -/
theorem health_body_reflects_models_loaded (s : MLService) :
    health_check none = (.ok (.dict [
      ("status", .str "healthy"),
      ("service", .str "ai-service"),
      ("version", .str "1.0.0"),
      ("models_loaded", .bool false)]), 0) ∧
    health_check (some s) = (.ok (.dict [
      ("status", .str "healthy"),
      ("service", .str "ai-service"),
      ("version", .str "1.0.0"),
      ("models_loaded", .bool s.models_loaded)]), 0) ∧
    initialGlobals.ml_service = none :=
  ⟨rfl, rfl, rfl⟩

/-- C3: the authentication dependency succeeds on every syntactically
valid bearer credential, returns the same result (`None`) for any two
credential values, and hence never rejects a malformed or
absent-signature token. -/
theorem get_current_user_is_noop (c1 c2 : HTTPAuthorizationCredentials) :
    get_current_user c1 = .ok none ∧ get_current_user c1 = get_current_user c2 :=
  ⟨rfl, rfl⟩

/-- C4 counterexample: the claim says every handler, on the success path,
calls exactly one method on a service object.  On a fully successful run
the price-prediction handler invokes two methods of the ML service
(`predict_price` on line 107 and `get_model_version` on line 113), and the
health handler invokes none, so the count is not one in either case. -/
theorem not_every_handler_calls_exactly_one_method :
    ((predict_price mlOK "BTC" "1h" 24).1).succeeded = true ∧
    (predict_price mlOK "BTC" "1h" 24).2 = 2 ∧
    ¬ (predict_price mlOK "BTC" "1h" 24).2 = 1 ∧
    ((health_check (some mlOK)).1).succeeded = true ∧
    (health_check (some mlOK)).2 = 0 ∧
    ¬ (health_check (some mlOK)).2 = 1 := by
  refine ⟨rfl, rfl, by decide, rfl, rfl, by decide⟩

/-- C4 as amended: on the success path, the chat and
portfolio-optimization handlers call exactly one service method, the
price-prediction handler calls exactly two (`predict_price` and
`get_model_version`), and the health handler calls none; each handler
reshapes the returned values into its response body. -/
theorem success_path_call_counts (ta : TradingAssistantService) (ml : MLService)
    (g : Option MLService) (message user_id symbol timeframe : String) (periods : Int)
    (portfolio_data : Value) (risk_tolerance : Rat) :
    (∀ r, ta.process_message message user_id = .ok r →
      chat_with_assistant ta message user_id = (.ok (.dict [("response", r)]), 1)) ∧
    (∀ p c v, ml.predict_price symbol timeframe periods = .ok p →
      p.get "confidence" (.num 0) = .ok c →
      ml.get_model_version "price_prediction" = .ok v →
      predict_price ml symbol timeframe periods = (.ok (.dict [
        ("symbol", .str symbol),
        ("timeframe", .str timeframe),
        ("predictions", p),
        ("confidence", c),
        ("model_version", v)]), 2)) ∧
    (∀ o w er rk sh rcs,
      ml.optimize_portfolio portfolio_data risk_tolerance = .ok (.dict o) →
      o.lookup "weights" = some w →
      o.lookup "expected_return" = some er →
      o.lookup "risk" = some rk →
      o.lookup "sharpe_ratio" = some sh →
      o.lookup "recommendations" = some rcs →
      optimize_portfolio ml portfolio_data risk_tolerance = (.ok (.dict [
        ("optimized_weights", w),
        ("expected_return", er),
        ("risk", rk),
        ("sharpe_ratio", sh),
        ("recommendations", rcs)]), 1)) ∧
    (health_check g).2 = 0 := by
  refine ⟨?_, ?_, ?_, rfl⟩
  · intro r h
    simp [chat_with_assistant, svcCall, h]
  · intro p c v h1 h2 h3
    simp [predict_price, svcCall, h1, h2, h3]
  · intro o w er rk sh rcs h hw her hrk hsh hrcs
    simp [optimize_portfolio, svcCall, Value.getItem, h, hw, her, hrk, hsh, hrcs]
    rfl

/-- Witness for the amended C4: concrete successful runs with the stated
call counts and bodies. -/
theorem success_path_call_counts_witness :
    chat_with_assistant taOK "hi" "u1" =
      (.ok (.dict [("response", .str "buy low, sell high")]), 1) ∧
    predict_price mlOK "ETH" "4h" 12 = (.ok (.dict [
      ("symbol", .str "ETH"),
      ("timeframe", .str "4h"),
      ("predictions", .dict [("confidence", .num (17/20)), ("trend", .str "up")]),
      ("confidence", .num (17/20)),
      ("model_version", .str "2.3.1")]), 2) ∧
    optimize_portfolio mlOK (.dict []) (1/2) = (.ok (.dict [
      ("optimized_weights", .dict [("AAPL", .num (3/5)), ("MSFT", .num (2/5))]),
      ("expected_return", .num (11/100)),
      ("risk", .num (1/25)),
      ("sharpe_ratio", .num (27/20)),
      ("recommendations", .list [.str "rebalance monthly"])]), 1) :=
  ⟨(success_path_call_counts taOK mlOK none "hi" "u1" "ETH" "4h" 12 (.dict []) (1/2)).1
      (.str "buy low, sell high") rfl,
   (success_path_call_counts taOK mlOK none "hi" "u1" "ETH" "4h" 12 (.dict []) (1/2)).2.1
      (.dict [("confidence", .num (17/20)), ("trend", .str "up")])
      (.num (17/20)) (.str "2.3.1") rfl rfl rfl,
   (success_path_call_counts taOK mlOK none "hi" "u1" "ETH" "4h" 12 (.dict []) (1/2)).2.2.1
      [("weights", .dict [("AAPL", .num (3/5)), ("MSFT", .num (2/5))]),
       ("expected_return", .num (11/100)),
       ("risk", .num (1/25)),
       ("sharpe_ratio", .num (27/20)),
       ("recommendations", .list [.str "rebalance monthly"])]
      (.dict [("AAPL", .num (3/5)), ("MSFT", .num (2/5))])
      (.num (11/100)) (.num (1/25)) (.num (27/20)) (.list [.str "rebalance monthly"])
      rfl rfl rfl rfl rfl rfl⟩

/-- C5: a request to `POST /api/v1/predictions/price` that omits the
`timeframe` or `periods` query parameter behaves exactly as if `"1h"` and
`24` had been supplied, and once the bearer dependency succeeds the
handler runs with timeframe `"1h"` and periods `24`, which it passes to
the ML service. -/
theorem predict_default_params (ml : MLService) (authorization : Option String)
    (symbol : String) :
    predict_price_route ml authorization symbol none none =
      predict_price_route ml authorization symbol (some "1h") (some 24) ∧
    (∀ creds, HTTPBearer authorization = .ok creds →
      predict_price_route ml authorization symbol none none =
        predict_price ml symbol "1h" 24) := by
  refine ⟨rfl, ?_⟩
  intro creds h
  simp [predict_price_route, withAuth, h, get_current_user]

/-- Witness for C5: with a concrete bearer header and the parameters
omitted, the route runs the handler with timeframe "1h" and periods 24. -/
theorem predict_default_params_witness :
    predict_price_route mlOK (some "Bearer abc.def.ghi") "BTC" none none =
      predict_price mlOK "BTC" "1h" 24 :=
  (predict_default_params mlOK (some "Bearer abc.def.ghi") "BTC").2
    ⟨"Bearer", "abc.def.ghi"⟩ rfl

/-- C6: each of the three protected POST routes rejects a request that
carries no `Authorization` header with 403 before the handler body runs
(so no service method is invoked), while `GET /health` has no security
dependency: it ignores the header and succeeds without one. -/
theorem bearer_required_on_post_routes (ta : TradingAssistantService) (ml : MLService)
    (g : Option MLService) (message user_id symbol : String)
    (timeframe : Option String) (periods : Option Int)
    (portfolio_data : Value) (risk_tolerance : Rat) :
    chat_route ta none message user_id = (.error ⟨403, "Not authenticated"⟩, 0) ∧
    predict_price_route ml none symbol timeframe periods =
      (.error ⟨403, "Not authenticated"⟩, 0) ∧
    optimize_portfolio_route ml none portfolio_data risk_tolerance =
      (.error ⟨403, "Not authenticated"⟩, 0) ∧
    (∀ authorization, health_route g authorization = health_check g ∧
      ((health_route g authorization).1).succeeded = true) :=
  ⟨rfl, rfl, rfl, fun _ => ⟨rfl, rfl⟩⟩

/-- C7: on a successful price-prediction request the response body has
exactly the keys `symbol`, `timeframe`, `predictions`, `confidence`,
`model_version`; `symbol` and `timeframe` are echoed unchanged from the
request and `predictions` is exactly the value the ML service returned. -/
theorem predict_response_shape (ml : MLService) (symbol timeframe : String)
    (periods : Int) (p c v : Value)
    (h1 : ml.predict_price symbol timeframe periods = .ok p)
    (h2 : p.get "confidence" (.num 0) = .ok c)
    (h3 : ml.get_model_version "price_prediction" = .ok v) :
    (predict_price ml symbol timeframe periods).1 = .ok (.dict [
      ("symbol", .str symbol),
      ("timeframe", .str timeframe),
      ("predictions", p),
      ("confidence", c),
      ("model_version", v)]) := by
  simp [predict_price, svcCall, h1, h2, h3]

/-- Witness for C7: a concrete successful prediction request. -/
theorem predict_response_shape_witness :
    (predict_price mlOK "SOL" "1d" 7).1 = .ok (.dict [
      ("symbol", .str "SOL"),
      ("timeframe", .str "1d"),
      ("predictions", .dict [("confidence", .num (17/20)), ("trend", .str "up")]),
      ("confidence", .num (17/20)),
      ("model_version", .str "2.3.1")]) :=
  predict_response_shape mlOK "SOL" "1d" 7
    (.dict [("confidence", .num (17/20)), ("trend", .str "up")])
    (.num (17/20)) (.str "2.3.1") rfl rfl rfl

/-- C8: on a successful portfolio-optimization request the response body
has exactly the keys `optimized_weights`, `expected_return`, `risk`,
`sharpe_ratio`, `recommendations`, taken respectively from the `weights`,
`expected_return`, `risk`, `sharpe_ratio`, `recommendations` entries of
the dictionary the ML service returned. -/
theorem optimize_response_shape (ml : MLService) (portfolio_data : Value)
    (risk_tolerance : Rat) (o : List (String × Value)) (w er rk sh rcs : Value)
    (h : ml.optimize_portfolio portfolio_data risk_tolerance = .ok (.dict o))
    (hw : o.lookup "weights" = some w)
    (her : o.lookup "expected_return" = some er)
    (hrk : o.lookup "risk" = some rk)
    (hsh : o.lookup "sharpe_ratio" = some sh)
    (hrcs : o.lookup "recommendations" = some rcs) :
    (optimize_portfolio ml portfolio_data risk_tolerance).1 = .ok (.dict [
      ("optimized_weights", w),
      ("expected_return", er),
      ("risk", rk),
      ("sharpe_ratio", sh),
      ("recommendations", rcs)]) := by
  simp [optimize_portfolio, svcCall, Value.getItem, h, hw, her, hrk, hsh, hrcs]
  rfl

/-- Witness for C8: a concrete successful optimization request. -/
theorem optimize_response_shape_witness :
    (optimize_portfolio mlOK (.dict [("AAPL", .num 100)]) (3/10)).1 = .ok (.dict [
      ("optimized_weights", .dict [("AAPL", .num (3/5)), ("MSFT", .num (2/5))]),
      ("expected_return", .num (11/100)),
      ("risk", .num (1/25)),
      ("sharpe_ratio", .num (27/20)),
      ("recommendations", .list [.str "rebalance monthly"])]) :=
  optimize_response_shape mlOK (.dict [("AAPL", .num 100)]) (3/10)
    [("weights", .dict [("AAPL", .num (3/5)), ("MSFT", .num (2/5))]),
     ("expected_return", .num (11/100)),
     ("risk", .num (1/25)),
     ("sharpe_ratio", .num (27/20)),
     ("recommendations", .list [.str "rebalance monthly"])]
    (.dict [("AAPL", .num (3/5)), ("MSFT", .num (2/5))])
    (.num (11/100)) (.num (1/25)) (.num (27/20)) (.list [.str "rebalance monthly"])
    rfl rfl rfl rfl rfl rfl

/-- C9: on a successful price-prediction request whose prediction
dictionary has no `confidence` key, the response field `confidence` is 0.0
(the default of `predictions.get`); when the key is present the field is
the value at that key. -/
theorem predict_confidence_default (ml : MLService) (symbol timeframe : String)
    (periods : Int) (kvs : List (String × Value)) (v : Value)
    (h1 : ml.predict_price symbol timeframe periods = .ok (.dict kvs))
    (h3 : ml.get_model_version "price_prediction" = .ok v) :
    (kvs.lookup "confidence" = none →
      (predict_price ml symbol timeframe periods).1 = .ok (.dict [
        ("symbol", .str symbol),
        ("timeframe", .str timeframe),
        ("predictions", .dict kvs),
        ("confidence", .num 0),
        ("model_version", v)])) ∧
    (∀ c, kvs.lookup "confidence" = some c →
      (predict_price ml symbol timeframe periods).1 = .ok (.dict [
        ("symbol", .str symbol),
        ("timeframe", .str timeframe),
        ("predictions", .dict kvs),
        ("confidence", c),
        ("model_version", v)])) := by
  constructor
  · intro hnone
    simp [predict_price, svcCall, Value.get, h1, h3, hnone]
  · intro c hsome
    simp [predict_price, svcCall, Value.get, h1, h3, hsome]

/-- Witness for C9: a prediction dictionary without a `confidence` key
yields confidence 0 in the response. -/
theorem predict_confidence_default_witness :
    (predict_price mlNoConf "BTC" "1h" 24).1 = .ok (.dict [
      ("symbol", .str "BTC"),
      ("timeframe", .str "1h"),
      ("predictions", .dict [("trend", .str "down")]),
      ("confidence", .num 0),
      ("model_version", .str "2.3.1")]) :=
  (predict_confidence_default mlNoConf "BTC" "1h" 24
    [("trend", .str "down")] (.str "2.3.1") rfl rfl).1 rfl

/-- C10: when the ML service returns an optimization dictionary that lacks
any one of the keys `weights`, `expected_return`, `risk`, `sharpe_ratio`,
`recommendations`, the subscript raises a `KeyError` inside the `try`
block and the handler returns HTTP 500 rather than a partial response. -/
theorem optimize_missing_key_500 (ml : MLService) (portfolio_data : Value)
    (risk_tolerance : Rat) (o : List (String × Value))
    (h : ml.optimize_portfolio portfolio_data risk_tolerance = .ok (.dict o))
    (hmiss : o.lookup "weights" = none ∨ o.lookup "expected_return" = none ∨
      o.lookup "risk" = none ∨ o.lookup "sharpe_ratio" = none ∨
      o.lookup "recommendations" = none) :
    ∃ d, (optimize_portfolio ml portfolio_data risk_tolerance).1 = .error ⟨500, d⟩ := by
  cases hw : o.lookup "weights" with
  | none =>
    exact ⟨keyErrorStr "weights",
      by simp [optimize_portfolio, svcCall, Value.getItem, h, hw]; rfl⟩
  | some w =>
    cases her : o.lookup "expected_return" with
    | none =>
      exact ⟨keyErrorStr "expected_return",
        by simp [optimize_portfolio, svcCall, Value.getItem, h, hw, her]; rfl⟩
    | some er =>
      cases hrk : o.lookup "risk" with
      | none =>
        exact ⟨keyErrorStr "risk",
          by simp [optimize_portfolio, svcCall, Value.getItem, h, hw, her, hrk]; rfl⟩
      | some rk =>
        cases hsh : o.lookup "sharpe_ratio" with
        | none =>
          exact ⟨keyErrorStr "sharpe_ratio",
            by simp [optimize_portfolio, svcCall, Value.getItem, h, hw, her, hrk, hsh]; rfl⟩
        | some sh =>
          cases hrcs : o.lookup "recommendations" with
          | none =>
            exact ⟨keyErrorStr "recommendations",
              by simp [optimize_portfolio, svcCall, Value.getItem, h, hw, her, hrk, hsh, hrcs]; rfl⟩
          | some rcs => simp_all

/-- Witness for C10: an optimization result without the `risk` key makes
the handler answer with status 500. -/
theorem optimize_missing_key_500_witness :
    ∃ d, (optimize_portfolio mlNoRisk (.dict []) (1/2)).1 = .error ⟨500, d⟩ :=
  optimize_missing_key_500 mlNoRisk (.dict []) (1/2)
    [("weights", .dict []),
     ("expected_return", .num 0),
     ("sharpe_ratio", .num 0),
     ("recommendations", .list [])]
    rfl (Or.inr (Or.inr (Or.inl rfl)))
